import Mathlib

/-!
# riftty render layer (`src/render.cpp`)

A shallow embedding of the rendering core: the checker texture factory, the
start-up routine, the draw-state tracker `s_prevShader` and the four geometry
emitters.  OpenGL and the shader objects are external; every call the source
makes to them is recorded, in program order, as an `Event` in a log carried by
the render state.  Values of C type `float` are embedded as rationals.  Where
the source converts a machine integer to `float`, or adds two such floats (the
text background box, the full-screen quad), the result is rounded to the
nearest binary32 value by `floatOfInt`; the glyph foreground quad and the
stereo distortion arithmetic are carried out exactly.
-/

namespace Riftty

/-! ## Loops -/

/-- The counting loop `for (i = 0; i < n; i++) body(i)`, threading a state. -/
def forUpTo {σ : Type} (n : Nat) (body : Nat → σ → σ) (s : σ) : σ :=
  (List.range n).foldl (fun acc i => body i acc) s

/-! ## Machine arithmetic -/

/-- The number of halvings that bring `a` below `2 ^ 24`: the binary exponent
of the unit in the last place of the `float` nearest to `a`.  `fuel` bounds the
search; `fuel = a` always suffices. -/
def ulpExponent : Nat → Nat → Nat
  | 0, _ => 0
  | fuel + 1, a => if a < 2 ^ 24 then 0 else 1 + ulpExponent fuel (a / 2)

/-- The conversion of an integer to `float` (IEEE binary32, 24-bit significand,
round to nearest, ties to even), as the integer value of the resulting float.
Integers of magnitude up to `2 ^ 24` are kept; a larger one is rounded to a
multiple of `2 ^ e`.  Every 32-bit integer is far below the overflow threshold
of the format. -/
def floatOfInt (n : Int) : Int :=
  let a := n.natAbs
  if a ≤ 2 ^ 24 then n else
    let e := ulpExponent a a
    let q := a / 2 ^ e
    let r := a % 2 ^ e
    let half := 2 ^ (e - 1)
    let q1 := if r > half ∨ (r = half ∧ q % 2 = 1) then q + 1 else q
    n.sign * ((q1 * 2 ^ e : Nat) : Int)

/-- The `float` sum of two integer-valued floats: the exact sum, rounded. -/
def floatAdd (a b : Int) : Int :=
  floatOfInt (a + b)

/-! ## Procedural texture factory -/

/-- One execution of the body of the inner loop of `CreateCheckerTexture`
(lines 75-85): the four-way branch on `i < W/2`, `j < W/2`, each arm a store to
`checker[i * W + j]`. -/
def checkerStore (W O X : Nat) (i j : Nat) (checker : List Nat) : List Nat :=
  if i < W / 2 then
    if j < W / 2 then checker.set (i * W + j) O
    else checker.set (i * W + j) X
  else
    if j < W / 2 then checker.set (i * W + j) X
    else checker.set (i * W + j) O

/-- The nested loops of `CreateCheckerTexture` (lines 73-87) run on a buffer. -/
def checkerFill (W O X : Nat) (checker : List Nat) : List Nat :=
  forUpTo W (fun i buf => forUpTo W (fun j b => checkerStore W O X i j b) buf) checker

/-- The buffer `new uint8_t[W * W]`: `W * W` bytes whose initial contents are
indeterminate; `fresh k` is whatever byte the allocator left at index `k`. -/
def newBuffer (n : Nat) (fresh : Nat → Nat) : List Nat :=
  (List.range n).map (fun k => fresh k % 256)

/-- The bitmap `CreateCheckerTexture` hands to `glTexImage2D`, with the
source's constants `W = 512`, `O = 100`, `X = 255`. -/
def CreateCheckerTexture (fresh : Nat → Nat) : List Nat :=
  checkerFill 512 100 255 (newBuffer (512 * 512) fresh)

/-! ## Start-up -/

/-- The five shader program instances `RenderInit` creates, named after the
globals that hold them (`s_fullbrightShader`, `s_fullbrightTexturedShader`,
`s_fullbrightTexturedTextShader`, `s_phongTexturedShader`, `s_oculusShader`). -/
inductive Shader
  | fullbright
  | fullbrightTextured
  | fullbrightTexturedText
  | phongTextured
  | oculus
  deriving DecidableEq, Repr

/-- The status `exit(EXIT_FAILURE)` hands to the host.  `EXIT_FAILURE` is the C
library's macro (`<cstdlib>`), whose value is `1`. -/
def EXIT_FAILURE : Int := 1

/-- The globals `RenderInit` writes: the shader objects constructed so far, in
order, and the texture object named by `s_checker` (`none` while `s_checker`
is still `0`, the uploaded bitmap once `CreateCheckerTexture` has run). -/
structure InitState where
  created : List Shader
  checkerTexture : Option (List Nat)
  deriving DecidableEq, Repr

/-- The globals before `RenderInit`: all shader pointers and `s_checker` are 0. -/
def InitState.initial : InitState := { created := [], checkerTexture := none }

/-- `RenderInit` (lines 94-127).  `compileAndLinkFromFiles s` is the boolean the
call on shader `s` returns.  `Except.error (status, g)` is the process ending
in `exit(status)` with globals `g`; `Except.ok g` is the function returning. -/
def RenderInit (compileAndLinkFromFiles : Shader → Bool) (fresh : Nat → Nat)
    (g : InitState) : Except (Int × InitState) InitState :=
  let g1 := { g with created := g.created ++ [Shader.fullbright] }
  if !(compileAndLinkFromFiles Shader.fullbright) then Except.error (EXIT_FAILURE, g1) else
  let g2 := { g1 with created := g1.created ++ [Shader.fullbrightTextured] }
  if !(compileAndLinkFromFiles Shader.fullbrightTextured) then
    Except.error (EXIT_FAILURE, g2) else
  let g3 := { g2 with created := g2.created ++ [Shader.fullbrightTexturedText] }
  if !(compileAndLinkFromFiles Shader.fullbrightTexturedText) then
    Except.error (EXIT_FAILURE, g3) else
  let g4 := { g3 with created := g3.created ++ [Shader.phongTextured] }
  if !(compileAndLinkFromFiles Shader.phongTextured) then
    Except.error (EXIT_FAILURE, g4) else
  let g5 := { g4 with created := g4.created ++ [Shader.oculus] }
  if !(compileAndLinkFromFiles Shader.oculus) then Except.error (EXIT_FAILURE, g5) else
  Except.ok { g5 with checkerTexture := some (CreateCheckerTexture fresh) }

/-! ## Vectors and external input structures -/

/-- `Vector2f`. -/
structure Vector2f where
  x : ℚ
  y : ℚ
  deriving DecidableEq

/-- `Vector3f`. -/
structure Vector3f where
  x : ℚ
  y : ℚ
  z : ℚ
  deriving DecidableEq

/-- `Vector4f`. -/
structure Vector4f where
  x : ℚ
  y : ℚ
  z : ℚ
  w : ℚ
  deriving DecidableEq

/-- `WIN_TextUserData` (declared in `win.h`), the fields `RenderText` reads.
`line_height` is an unsigned 32-bit quantity; the colours are packed `uint32_t`. -/
structure WIN_TextUserData where
  bg_color : Nat
  fg_color : Nat
  line_height : Nat
  max_advance : Int

/-- `GB_GlyphQuad` (declared by the text-layout library), the fields
`RenderText` reads; `pen[0]`, `pen[1]` are `pen0`, `pen1`, and so on.  The
integer fields are 32-bit machine integers, held here by their values. -/
structure GB_GlyphQuad where
  pen0 : Int
  pen1 : Int
  origin0 : Int
  origin1 : Int
  size0 : Int
  size1 : Int
  uv_origin0 : ℚ
  uv_origin1 : ℚ
  uv_size0 : ℚ
  uv_size1 : ℚ
  user_data : WIN_TextUserData
  gl_tex_obj : Nat

/-- `OVR::Util::Render::Viewport`. -/
structure Viewport where
  x : Int
  y : Int
  w : Int
  h : Int

/-- `OVR::Util::Render::DistortionConfig`, the fields `RenderPostProcessWarp`
reads; `K[0]`..`K[3]` are `K0`..`K3`. -/
structure DistortionConfig where
  K0 : ℚ
  K1 : ℚ
  K2 : ℚ
  K3 : ℚ
  XCenterOffset : ℚ
  Scale : ℚ

/-- `OVR::Util::Render::StereoEyeParams`: the eye viewport `VP` and the
distortion configuration `pDistortion` points to. -/
structure StereoEyeParams where
  VP : Viewport
  pDistortion : DistortionConfig

/-- `OVR::Util::Render::StereoEye`. -/
inductive StereoEye
  | StereoEye_Left
  | StereoEye_Right
  deriving DecidableEq

/-- `OVR::Util::Render::StereoConfig`, as the two accessors the code calls. -/
structure StereoConfig where
  GetEyeRenderParams : StereoEye → StereoEyeParams
  GetFullViewport : Viewport

/-! ## The call log and the render state -/

/-- A call into OpenGL or into a shader object, as issued by the emitters.
`apply s previous attrib` is `s->apply(previous, attrib)`.  Matrix uniform
setters whose argument is built by the external matrix library (`setMat`,
`setFullMat`, `setWorldMat`, `setWorldNormalMat`) are not logged. -/
inductive Event
  | glViewport (x y w h : Int)
  | glEnableScissorTest
  | glScissor (x y w h : Int)
  | glClearColor (r g b a : ℚ)
  | glClear
  | setColor (s : Shader) (c : Vector4f)
  | setTex (s : Shader) (tex : Nat)
  | setLightWorldPos (ps : List Vector3f)
  | setLightColor (cs : List Vector3f)
  | setLightStrength (ss : List ℚ)
  | setNumLights (n : Nat)
  | setLensCenter (v : Vector2f)
  | setScreenCenter (v : Vector2f)
  | setScale (v : Vector2f)
  | setScaleIn (v : Vector2f)
  | setHmdWarpParam (v : Vector4f)
  | setTexm (rows : List Vector4f)
  | setView (rows : List Vector4f)
  | setTexture0 (tex : Nat)
  | apply (s : Shader) (previous : Option Shader) (attrib : List ℚ)
  | glDrawElements (count : Nat) (indices : List Nat)
  deriving DecidableEq

/-- The mutable state the emitters share: the draw-state tracker
`s_prevShader` (`none` is the null pointer), the texture name `s_checker`, the
`static bool init` of `RenderFloor`, and the log of calls issued so far. -/
structure RenderState where
  s_prevShader : Option Shader
  s_checker : Nat
  floorInit : Bool
  log : List Event

/-- The index array `{0, 2, 1, 2, 3, 1}` every emitter draws with. -/
def quadIndices : List Nat := [0, 2, 1, 2, 3, 1]

/-- `UintColorToVector4` (lines 136-142). -/
def UintColorToVector4 (color : Nat) : Vector4f :=
  { x := ((color &&& 0xff : Nat) : ℚ) / 255
    y := (((color >>> 8) &&& 0xff : Nat) : ℚ) / 255
    z := (((color >>> 16) &&& 0xff : Nat) : ℚ) / 255
    w := (((color >>> 24) &&& 0xff : Nat) : ℚ) / 255 }

/-- `RenderBegin` (lines 144-147). -/
def RenderBegin (st : RenderState) : RenderState :=
  { st with s_prevShader := none }

/-- `RenderEnd` (lines 149-152). -/
def RenderEnd (st : RenderState) : RenderState := st

/-! ## Text -/

/-- The array `pos` of the first loop of `RenderText` (lines 174-183).
`y_offset` is a `uint32_t`, so `pen[1] + y_offset` is evaluated in 32-bit
unsigned arithmetic, modulo `2 ^ 32`, before it is converted to `float`; the
components of `origin` and `size` are integer-valued floats, and the sums in
the initialiser are `float` additions.  The initialiser list has eleven
entries; the twelfth element is zero-initialised. -/
def textBackgroundPos (q : GB_GlyphQuad) : List ℚ :=
  let data := q.user_data
  let y_offset : Nat := (data.line_height / 3) % 2 ^ 32
  let origin_x : Int := floatOfInt q.pen0
  let origin_y : Int := floatOfInt ((q.pen1 + (y_offset : Int)) % 2 ^ 32)
  let size_x : Int := floatOfInt data.max_advance
  let size_y : Int := -(floatOfInt (data.line_height : Int))
  [(origin_x : ℚ), (origin_y : ℚ), 0,
   (floatAdd origin_x size_x : ℚ), (origin_y : ℚ), 0,
   (origin_x : ℚ), (floatAdd origin_y size_y : ℚ), 0,
   (floatAdd origin_x size_x : ℚ), (floatAdd origin_y size_y : ℚ), 0]

/-- One iteration of the first loop of `RenderText` (lines 169-188). -/
def textBackgroundStep (q : GB_GlyphQuad) (st : RenderState) : RenderState :=
  let bg_color : Vector4f := { UintColorToVector4 q.user_data.bg_color with w := 1 / 2 }
  { st with
    log := st.log ++
      [Event.setColor Shader.fullbright bg_color,
       Event.apply Shader.fullbright st.s_prevShader (textBackgroundPos q),
       Event.glDrawElements 6 quadIndices]
    s_prevShader := some Shader.fullbright }

/-- The array `attrib` of the second loop of `RenderText` (lines 197-206), with
`kDepthOffset = 3`; its arithmetic is carried out exactly. -/
def textForegroundAttrib (q : GB_GlyphQuad) : List ℚ :=
  let kDepthOffset : ℚ := 3
  let origin : Vector2f := { x := (q.origin0 : ℚ), y := (q.origin1 : ℚ) }
  let size : Vector2f := { x := (q.size0 : ℚ), y := (q.size1 : ℚ) }
  let uv_origin : Vector2f := { x := q.uv_origin0, y := q.uv_origin1 }
  let uv_size : Vector2f := { x := q.uv_size0, y := q.uv_size1 }
  [origin.x, origin.y, kDepthOffset, uv_origin.x, uv_origin.y,
   origin.x + size.x, origin.y, kDepthOffset, uv_origin.x + uv_size.x, uv_origin.y,
   origin.x, origin.y + size.y, kDepthOffset, uv_origin.x, uv_origin.y + uv_size.y,
   origin.x + size.x, origin.y + size.y, kDepthOffset,
     uv_origin.x + uv_size.x, uv_origin.y + uv_size.y]

/-- One iteration of the second loop of `RenderText` (lines 193-214). -/
def textForegroundStep (q : GB_GlyphQuad) (st : RenderState) : RenderState :=
  if q.size0 > 0 ∧ q.size1 > 0 then
    { st with
      log := st.log ++
        [Event.setColor Shader.fullbrightTexturedText (UintColorToVector4 q.user_data.fg_color),
         Event.setTex Shader.fullbrightTexturedText q.gl_tex_obj,
         Event.apply Shader.fullbrightTexturedText st.s_prevShader (textForegroundAttrib q),
         Event.glDrawElements 6 quadIndices]
      s_prevShader := some Shader.fullbrightTexturedText }
  else st

/-- The first (background) loop of `RenderText` (lines 167-189), over the
`num_quads` elements of `quads`. -/
def textBackgroundPass (quads : List GB_GlyphQuad) (st : RenderState) : RenderState :=
  quads.foldl (fun acc q => textBackgroundStep q acc) st

/-- The second (foreground) loop of `RenderText` (lines 192-215). -/
def textForegroundPass (quads : List GB_GlyphQuad) (st : RenderState) : RenderState :=
  quads.foldl (fun acc q => textForegroundStep q acc) st

/-- `RenderText` (lines 162-217); the array `quads` with its length `num_quads`
is a list. -/
def RenderText (quads : List GB_GlyphQuad) (st : RenderState) : RenderState :=
  textForegroundPass quads (textBackgroundPass quads st)

/-! ## Ground plane, full-screen blit -/

/-- The array `attrib` of `RenderFloor` (lines 263-270), with
`kFeetToCm = 30.48`, `kOffset = 1000 * kFeetToCm`, `kTexOffset = 100`. -/
def floorAttrib : List ℚ :=
  let kFeetToCm : ℚ := 3048 / 100
  let kOffset : ℚ := 1000 * kFeetToCm
  let kTexOffset : ℚ := 100
  [0 - kOffset, 0, 0 - kOffset, 0, 0, 0, 1, 0,
   0 + kOffset, 0, 0 - kOffset, 0 + kTexOffset, 0, 0, 1, 0,
   0 - kOffset, 0, 0 + kOffset, 0, 0 + kTexOffset, 0, 1, 0,
   0 + kOffset, 0, 0 + kOffset, 0 + kTexOffset, 0 + kTexOffset, 0, 1, 0]

/-- The calls of the `if (!init)` block of `RenderFloor` (lines 240-261). -/
def floorLightSetup : List Event :=
  let kFeetToCm : ℚ := 3048 / 100
  [Event.setLightWorldPos
     [{ x := 0, y := 4 * kFeetToCm, z := 0 },
      { x := 10 * kFeetToCm, y := 4 * kFeetToCm, z := 0 },
      { x := 0, y := 4 * kFeetToCm, z := 10 * kFeetToCm }],
   Event.setLightColor
     [{ x := 1, y := 1, z := 1 }, { x := 1, y := 0, z := 0 }, { x := 0, y := 0, z := 1 }],
   Event.setLightStrength [200, 100, 100],
   Event.setNumLights 3]

/-- `RenderFloor` (lines 224-275).  The matrix arguments only feed the unlogged
matrix setters.  After `apply` the function draws and returns: it has no
assignment to `s_prevShader`. -/
def RenderFloor (st : RenderState) : RenderState :=
  { st with
    log := st.log ++
      [Event.setColor Shader.phongTextured { x := 1, y := 1, z := 1, w := 1 },
       Event.setTex Shader.phongTextured st.s_checker] ++
      (if !st.floorInit then floorLightSetup else []) ++
      [Event.apply Shader.phongTextured st.s_prevShader floorAttrib,
       Event.glDrawElements 6 quadIndices]
    floorInit := true }

/-- The array `attrib` of `RenderFullScreenQuad` (lines 285-290): four vertices,
each `x, y, z, u, v`.  `width` and `height` are `int`s, converted to `float` as
they are stored. -/
def fullScreenQuadAttrib (width height : Int) : List ℚ :=
  [0, 0, 0, 0, 0,
   (floatOfInt width : ℚ), 0, 0, 1, 0,
   0, (floatOfInt height : ℚ), 0, 0, 1,
   (floatOfInt width : ℚ), (floatOfInt height : ℚ), 0, 1, 1]

/-- `RenderFullScreenQuad` (lines 277-297). -/
def RenderFullScreenQuad (texture : Nat) (width height : Int) (st : RenderState) :
    RenderState :=
  { st with
    log := st.log ++
      [Event.setColor Shader.fullbrightTextured { x := 1, y := 1, z := 1, w := 1 },
       Event.setTex Shader.fullbrightTextured texture,
       Event.apply Shader.fullbrightTextured st.s_prevShader
         (fullScreenQuadAttrib width height),
       Event.glDrawElements 6 quadIndices]
    s_prevShader := some Shader.fullbrightTextured }

/-! ## Stereo distortion -/

/-- The argument of `setLensCenter` (lines 323-325), as a function of the
locals `x, y, w, h`, of `dConfig.XCenterOffset` and of the eye flag. -/
def lensCenter (x y w h XCenterOffset : ℚ) (left : Bool) : Vector2f :=
  let sign : ℚ := if left then 1 else -1
  { x := x + (w + sign * XCenterOffset * (1 / 2)) * (1 / 2), y := y + h * (1 / 2) }

/-- The argument of `setScreenCenter` (line 327). -/
def screenCenter (x y w h : ℚ) : Vector2f :=
  { x := x + w * (1 / 2), y := y + h * (1 / 2) }

/-- The argument of `setScale` (lines 331-333); `distortionScale` is
`dConfig.Scale`. -/
def warpScale (w h as distortionScale : ℚ) : Vector2f :=
  let scaleFactor : ℚ := 1 / distortionScale
  { x := (w / 2) * scaleFactor, y := (h / 2) * scaleFactor * as }

/-- The argument of `setScaleIn` (line 334). -/
def warpScaleIn (w h as : ℚ) : Vector2f :=
  { x := 2 / w, y := (2 / h) / as }

/-- The array `attrib` of `RenderPostProcessWarp` (lines 358-363). -/
def warpAttrib : List ℚ :=
  [0, 1, 0, 1, 0, 0,
   1, 1, 0, 1, 1, 0,
   0, 0, 0, 1, 0, 1,
   1, 0, 0, 1, 1, 1]

/-- The eye `RenderPostProcessWarp` asks the configuration for (line 301). -/
def eyeOf (left : Bool) : StereoEye :=
  if left then StereoEye.StereoEye_Left else StereoEye.StereoEye_Right

/-- The local `w` of `RenderPostProcessWarp` (line 314). -/
def warpW (sConfig : StereoConfig) (left : Bool) : ℚ :=
  ((sConfig.GetEyeRenderParams (eyeOf left)).VP.w : ℚ) / (sConfig.GetFullViewport.w : ℚ)

/-- The local `h` of `RenderPostProcessWarp` (line 315). -/
def warpH (sConfig : StereoConfig) (left : Bool) : ℚ :=
  ((sConfig.GetEyeRenderParams (eyeOf left)).VP.h : ℚ) / (sConfig.GetFullViewport.h : ℚ)

/-- The local `x` of `RenderPostProcessWarp` (line 316). -/
def warpX (sConfig : StereoConfig) (left : Bool) : ℚ :=
  ((sConfig.GetEyeRenderParams (eyeOf left)).VP.x : ℚ) / (sConfig.GetFullViewport.w : ℚ)

/-- The local `y` of `RenderPostProcessWarp` (line 317). -/
def warpY (sConfig : StereoConfig) (left : Bool) : ℚ :=
  ((sConfig.GetEyeRenderParams (eyeOf left)).VP.y : ℚ) / (sConfig.GetFullViewport.h : ℚ)

/-- The local `as` of `RenderPostProcessWarp` (line 319). -/
def warpAs (sConfig : StereoConfig) (left : Bool) : ℚ :=
  ((sConfig.GetEyeRenderParams (eyeOf left)).VP.w : ℚ) /
    ((sConfig.GetEyeRenderParams (eyeOf left)).VP.h : ℚ)

/-- The calls `RenderPostProcessWarp` issues before `apply` (lines 301-356). -/
def warpSetup (sConfig : StereoConfig) (texture : Nat) (left : Bool) : List Event :=
  let eyeParams := sConfig.GetEyeRenderParams (eyeOf left)
  let dConfig := eyeParams.pDistortion
  let w := warpW sConfig left
  let h := warpH sConfig left
  let x := warpX sConfig left
  let y := warpY sConfig left
  let as := warpAs sConfig left
  [Event.glViewport eyeParams.VP.x eyeParams.VP.y eyeParams.VP.w eyeParams.VP.h,
   Event.glEnableScissorTest,
   Event.glScissor eyeParams.VP.x 0 eyeParams.VP.w eyeParams.VP.h,
   (if left then Event.glClearColor 1 0 0 1 else Event.glClearColor 0 0 1 1),
   Event.glClear,
   Event.setLensCenter (lensCenter x y w h dConfig.XCenterOffset left),
   Event.setScreenCenter (screenCenter x y w h),
   Event.setScale (warpScale w h as dConfig.Scale),
   Event.setScaleIn (warpScaleIn w h as),
   Event.setHmdWarpParam { x := dConfig.K0, y := dConfig.K1, z := dConfig.K2, w := dConfig.K3 },
   Event.setTexm
     [{ x := w, y := 0, z := 0, w := x }, { x := 0, y := h, z := 0, w := y },
      { x := 0, y := 0, z := 0, w := 0 }, { x := 0, y := 0, z := 0, w := 1 }],
   Event.setView
     [{ x := 2, y := 0, z := 0, w := -1 }, { x := 0, y := 2, z := 0, w := -1 },
      { x := 0, y := 0, z := 0, w := 0 }, { x := 0, y := 0, z := 0, w := 1 }],
   Event.setTexture0 texture]

/-- `RenderPostProcessWarp` (lines 299-370). -/
def RenderPostProcessWarp (sConfig : StereoConfig) (texture : Nat) (left : Bool)
    (st : RenderState) : RenderState :=
  { st with
    log := st.log ++ warpSetup sConfig texture left ++
      [Event.apply Shader.oculus st.s_prevShader warpAttrib,
       Event.glDrawElements 6 quadIndices]
    s_prevShader := some Shader.oculus }

/-! ## Frames and what the log says about them -/

/-- A call of one of the four draw entry points. -/
inductive EmitterCall
  | text (quads : List GB_GlyphQuad)
  | floor
  | fullScreenQuad (texture : Nat) (width height : Int)
  | postProcessWarp (sConfig : StereoConfig) (texture : Nat) (left : Bool)

/-- Execute one emitter call. -/
def EmitterCall.run : EmitterCall → RenderState → RenderState
  | EmitterCall.text quads, st => RenderText quads st
  | EmitterCall.floor, st => RenderFloor st
  | EmitterCall.fullScreenQuad texture width height, st =>
      RenderFullScreenQuad texture width height st
  | EmitterCall.postProcessWarp sConfig texture left, st =>
      RenderPostProcessWarp sConfig texture left st

/-- A frame: `RenderBegin` followed by the emitter calls, in order. -/
def runFrame (calls : List EmitterCall) (st : RenderState) : RenderState :=
  calls.foldl (fun acc c => c.run acc) (RenderBegin st)

/-- The `apply` calls of a log, in order: the shader applied and the
previous-program argument it was handed.  Each is followed by one draw. -/
def applies (log : List Event) : List (Shader × Option Shader) :=
  log.filterMap fun e =>
    match e with
    | Event.apply s previous _ => some (s, previous)
    | _ => none

/-- Modelled from the spec: `Shader::apply(previous, attribs)` is declared in
`shader.h`, outside the source; it binds the program and configures every
vertex attribute (a full bind) exactly when `previous` is not the shader it is
called on. -/
def fullBind (s : Shader) (previous : Option Shader) : Bool :=
  previous != some s

/-- The number of `apply` calls of a log that perform a full bind. -/
def fullBindCount (log : List Event) : Nat :=
  ((applies log).filter fun a => fullBind a.1 a.2).length

/-- The programs of the draws of a log, in order. -/
def drawPrograms (log : List Event) : List Shader :=
  (applies log).map Prod.fst

/-- The number of maximal runs of equal consecutive elements. -/
def maximalRuns : List Shader → Nat
  | [] => 0
  | [_] => 1
  | a :: b :: rest => (if a = b then 0 else 1) + maximalRuns (b :: rest)

/-- The number of `glDrawElements` calls of a log. -/
def drawCount (log : List Event) : Nat :=
  (log.filter fun e =>
    match e with
    | Event.glDrawElements _ _ => true
    | _ => false).length

/-- The vertex buffers handed to `apply` on shader `s`, in order. -/
def applyAttribs (s : Shader) (log : List Event) : List (List ℚ) :=
  log.filterMap fun e =>
    match e with
    | Event.apply s1 _ attrib => if s1 = s then some attrib else none
    | _ => none

/-- A render state whose log is empty: tracker `prev`, texture name `checker`,
floor flag `init`. -/
def freshState (prev : Option Shader) (checker : Nat) (init : Bool) : RenderState :=
  { s_prevShader := prev, s_checker := checker, floorInit := init, log := [] }

/-- The `apply` calls that a tracker starting at `prev`, and updated after
every draw, produces for the programs `ps`: each draw is handed the program of
the draw before it. -/
def replay : Option Shader → List Shader → List (Shader × Option Shader)
  | _, [] => []
  | prev, s :: rest => (s, prev) :: replay (some s) rest

/-- The tracker after draws with the programs `ps`, each recorded. -/
def trackerAfter (prev : Option Shader) (ps : List Shader) : Option Shader :=
  ps.foldl (fun _ s => some s) prev

/-- The glyph quads the foreground pass of `RenderText` does not skip. -/
def drawnGlyphs (quads : List GB_GlyphQuad) : List GB_GlyphQuad :=
  quads.filter fun q => decide (q.size0 > 0 ∧ q.size1 > 0)

/-- The programs an emitter call draws with, in order. -/
def EmitterCall.programs : EmitterCall → List Shader
  | EmitterCall.text quads =>
      quads.map (fun _ => Shader.fullbright) ++
        (drawnGlyphs quads).map (fun _ => Shader.fullbrightTexturedText)
  | EmitterCall.floor => [Shader.phongTextured]
  | EmitterCall.fullScreenQuad _ _ _ => [Shader.fullbrightTextured]
  | EmitterCall.postProcessWarp _ _ _ => [Shader.oculus]

/-- Whether an emitter call is a call of `RenderFloor`. -/
def EmitterCall.isFloor : EmitterCall → Bool
  | EmitterCall.floor => true
  | _ => false

/-- The programs a sequence of emitter calls draws with, in order. -/
def framePrograms : List EmitterCall → List Shader
  | [] => []
  | c :: cs => c.programs ++ framePrograms cs

/-- A sample glyph: pen at `(5, 7)`, line height `30`, maximum advance `12`,
a `9 x 14` glyph image. -/
def sampleGlyph : GB_GlyphQuad :=
  { pen0 := 5, pen1 := 7, origin0 := 5, origin1 := 4, size0 := 9, size1 := 14,
    uv_origin0 := 0, uv_origin1 := 0, uv_size0 := 1 / 8, uv_size1 := 1 / 4,
    user_data := { bg_color := 0, fg_color := 0xffffffff, line_height := 30, max_advance := 12 },
    gl_tex_obj := 1 }

/-- The sample glyph with its pen moved to height `pen1`. -/
def sampleGlyphAt (pen1 : Int) : GB_GlyphQuad :=
  { sampleGlyph with pen1 := pen1 }

/-- One vertex of an interleaved `x, y, z, u, v` buffer. -/
structure QuadVertex where
  x : ℚ
  y : ℚ
  z : ℚ
  u : ℚ
  v : ℚ

/-- Vertex `k` of an interleaved `x, y, z, u, v` buffer. -/
def vertexAt (attrib : List ℚ) (k : Nat) : QuadVertex :=
  { x := attrib.getD (5 * k) 0, y := attrib.getD (5 * k + 1) 0, z := attrib.getD (5 * k + 2) 0,
    u := attrib.getD (5 * k + 3) 0, v := attrib.getD (5 * k + 4) 0 }

/-- A sample glyph with an empty image (a space): width `0`. -/
def sampleBlank : GB_GlyphQuad :=
  { sampleGlyph with size0 := 0, size1 := 14 }

/-- A sample stereo configuration: a `1280 x 800` full viewport placed at
`y = 10`, split into two `640 x 800` eye viewports. -/
def sampleStereoConfig : StereoConfig :=
  { GetEyeRenderParams := fun eye =>
      { VP := { x := if eye = StereoEye.StereoEye_Left then 0 else 640, y := 10,
                w := 640, h := 800 },
        pDistortion := { K0 := 1, K1 := 22 / 100, K2 := 24 / 100, K3 := 0,
                         XCenterOffset := 15 / 100, Scale := 17 / 10 } },
    GetFullViewport := { x := 0, y := 10, w := 1280, h := 800 } }

/-- The value the checker pattern has at flat index `k`. -/
def checkerAt (W O X k : Nat) : Nat :=
  if decide (k / W < W / 2) = decide (k % W < W / 2) then O else X

/-! ## Theorems -/

theorem forUpTo_zero {σ : Type} (body : Nat → σ → σ) (s : σ) : forUpTo 0 body s = s := by
  simp [forUpTo]

theorem forUpTo_succ {σ : Type} (n : Nat) (body : Nat → σ → σ) (s : σ) :
    forUpTo (n + 1) body s = body n (forUpTo n body s) := by
  simp [forUpTo, List.range_succ, List.foldl_append]

theorem checkerStore_eq (W O X i j : Nat) (buf : List Nat) :
    checkerStore W O X i j buf =
      buf.set (i * W + j) (if decide (i < W / 2) = decide (j < W / 2) then O else X) := by
  unfold checkerStore
  by_cases hi : i < W / 2 <;> by_cases hj : j < W / 2 <;> simp [hi, hj]

theorem checker_inner_inv (W O X i : Nat) (buf : List Nat) (n : Nat) (hn : n ≤ W)
    (hlen : buf.length = W * W) (hi : i < W)
    (hprev : ∀ k, k < i * W → buf[k]? = some (checkerAt W O X k)) :
    (forUpTo n (fun j b => checkerStore W O X i j b) buf).length = W * W ∧
    ∀ k, k < i * W + n →
      (forUpTo n (fun j b => checkerStore W O X i j b) buf)[k]? = some (checkerAt W O X k) := by
  induction n with
  | zero => simpa [forUpTo_zero] using ⟨hlen, hprev⟩
  | succ n ih =>
    obtain ⟨ihl, ihv⟩ := ih (by omega)
    rw [forUpTo_succ, checkerStore_eq]
    refine ⟨by simpa using ihl, ?_⟩
    intro k hk
    have hWpos : 0 < W := by omega
    have hbound : i * W + n < W * W := by
      have : (i + 1) * W ≤ W * W := Nat.mul_le_mul_right W hi
      have h2 : (i + 1) * W = i * W + W := by ring
      omega
    by_cases hkn : k = i * W + n
    · subst hkn
      rw [List.getElem?_set_self (by omega)]
      have hdiv : (i * W + n) / W = i := by
        rw [Nat.add_comm, Nat.add_mul_div_right _ _ hWpos, Nat.div_eq_of_lt (by omega)]
        simp
      have hmod : (i * W + n) % W = n := by
        rw [Nat.add_comm, Nat.add_mul_mod_self_right, Nat.mod_eq_of_lt (by omega)]
      simp [checkerAt, hdiv, hmod]
    · rw [List.getElem?_set_ne (by omega)]
      exact ihv k (by omega)

theorem checker_outer_inv (W O X : Nat) (buf : List Nat) (hlen : buf.length = W * W)
    (m : Nat) (hm : m ≤ W) :
    (forUpTo m (fun i b => forUpTo W (fun j b => checkerStore W O X i j b) b) buf).length
        = W * W ∧
    ∀ k, k < m * W →
      (forUpTo m (fun i b => forUpTo W (fun j b => checkerStore W O X i j b) b) buf)[k]?
        = some (checkerAt W O X k) := by
  induction m with
  | zero => simpa [forUpTo_zero] using hlen
  | succ m ih =>
    obtain ⟨ihl, ihv⟩ := ih (by omega)
    rw [forUpTo_succ]
    have := checker_inner_inv W O X m _ W (le_refl W) ihl (by omega) ihv
    refine ⟨this.1, ?_⟩
    intro k hk
    apply this.2
    have : (m + 1) * W = m * W + W := by ring
    omega

/-- C3. The bitmap built by `CreateCheckerTexture` has `512 * 512` entries, and
for all `i, j < 512` the entry at index `i * 512 + j` is `100` when
`(i < 256) == (j < 256)` and `255` otherwise, whatever the freshly allocated
buffer held. -/
theorem CreateCheckerTexture_pattern (fresh : Nat → Nat) :
    (CreateCheckerTexture fresh).length = 512 * 512 ∧
    ∀ i j : Nat, i < 512 → j < 512 →
      (CreateCheckerTexture fresh)[i * 512 + j]? =
        some (if decide (i < 256) = decide (j < 256) then 100 else 255) := by
  have h := checker_outer_inv 512 100 255 (newBuffer (512 * 512) fresh)
    (by simp [newBuffer]) 512 (le_refl _)
  refine ⟨h.1, ?_⟩
  intro i j hi hj
  have hk := h.2 (i * 512 + j) (by omega)
  have hdiv : (i * 512 + j) / 512 = i := by omega
  have hmod : (i * 512 + j) % 512 = j := by omega
  unfold CreateCheckerTexture checkerFill
  rw [hk]
  simp [checkerAt, hdiv, hmod]

/-! ### The log under append -/

theorem applies_append (l1 l2 : List Event) :
    applies (l1 ++ l2) = applies l1 ++ applies l2 := by
  simp [applies, List.filterMap_append]

theorem applyAttribs_append (s : Shader) (l1 l2 : List Event) :
    applyAttribs s (l1 ++ l2) = applyAttribs s l1 ++ applyAttribs s l2 := by
  simp [applyAttribs, List.filterMap_append]

theorem drawCount_append (l1 l2 : List Event) :
    drawCount (l1 ++ l2) = drawCount l1 + drawCount l2 := by
  simp [drawCount, List.filter_append]

theorem applies_warpSetup (sConfig : StereoConfig) (texture : Nat) (left : Bool) :
    applies (warpSetup sConfig texture left) = [] := by
  cases left <;> simp [applies, warpSetup]

theorem applies_floorLightSetup : applies floorLightSetup = [] := by
  simp [applies, floorLightSetup]

/-! ### The tracker -/

theorem replay_append (prev : Option Shader) (l1 l2 : List Shader) :
    replay prev (l1 ++ l2) = replay prev l1 ++ replay (trackerAfter prev l1) l2 := by
  induction l1 generalizing prev with
  | nil => simp [replay, trackerAfter]
  | cons s rest ih => simp [replay, trackerAfter, ih]

theorem trackerAfter_append (prev : Option Shader) (l1 l2 : List Shader) :
    trackerAfter prev (l1 ++ l2) = trackerAfter (trackerAfter prev l1) l2 := by
  simp [trackerAfter, List.foldl_append]

theorem map_fst_replay (prev : Option Shader) (l : List Shader) :
    (replay prev l).map Prod.fst = l := by
  induction l generalizing prev with
  | nil => simp [replay]
  | cons s rest ih => simp [replay, ih]

theorem maximalRuns_pos (s : Shader) (rest : List Shader) : 0 < maximalRuns (s :: rest) := by
  induction rest generalizing s with
  | nil => simp [maximalRuns]
  | cons t r ih =>
    have := ih t
    simp only [maximalRuns]
    omega

theorem fullBind_count_replay (prev : Option Shader) (s : Shader) (rest : List Shader) :
    ((replay prev (s :: rest)).filter fun a => fullBind a.1 a.2).length
      + (if prev = some s then 1 else 0) = maximalRuns (s :: rest) := by
  induction rest generalizing prev s with
  | nil => by_cases h : prev = some s <;> simp [replay, maximalRuns, fullBind, h]
  | cons t r ih =>
    have h1 := ih (some s) t
    have h2 := maximalRuns_pos t r
    simp only [replay] at h1 ⊢
    simp only [maximalRuns]
    by_cases hst : s = t
    · subst hst
      by_cases hp : prev = some s <;>
        simp [fullBind, hp, List.filter_cons] at h1 ⊢ <;> omega
    · by_cases hp : prev = some s <;>
        simp [fullBind, hp, hst, List.filter_cons] at h1 ⊢ <;> omega

theorem fullBind_count_replay_none (ps : List Shader) :
    ((replay none ps).filter fun a => fullBind a.1 a.2).length = maximalRuns ps := by
  cases ps with
  | nil => simp [replay, maximalRuns]
  | cons s rest => simpa using fullBind_count_replay none s rest

/-! ### What each emitter appends to the `apply` calls -/

theorem textBackgroundPass_applies (quads : List GB_GlyphQuad) (st : RenderState) :
    applies (textBackgroundPass quads st).log =
        applies st.log ++ replay st.s_prevShader (quads.map fun _ => Shader.fullbright) ∧
    (textBackgroundPass quads st).s_prevShader =
        trackerAfter st.s_prevShader (quads.map fun _ => Shader.fullbright) := by
  induction quads generalizing st with
  | nil => simp [textBackgroundPass, replay, trackerAfter]
  | cons q qs ih =>
    have h := ih (textBackgroundStep q st)
    simp only [textBackgroundPass, List.foldl_cons] at h ⊢
    rw [h.1, h.2]
    simp [textBackgroundStep, applies_append, applies, replay, trackerAfter]

theorem textForegroundPass_applies (quads : List GB_GlyphQuad) (st : RenderState) :
    applies (textForegroundPass quads st).log =
        applies st.log ++ replay st.s_prevShader
          ((drawnGlyphs quads).map fun _ => Shader.fullbrightTexturedText) ∧
    (textForegroundPass quads st).s_prevShader =
        trackerAfter st.s_prevShader
          ((drawnGlyphs quads).map fun _ => Shader.fullbrightTexturedText) := by
  induction quads generalizing st with
  | nil => simp [textForegroundPass, drawnGlyphs, replay, trackerAfter]
  | cons q qs ih =>
    have h := ih (textForegroundStep q st)
    simp only [textForegroundPass, List.foldl_cons] at h ⊢
    rw [h.1, h.2]
    by_cases hq : q.size0 > 0 ∧ q.size1 > 0
    · simp [textForegroundStep, drawnGlyphs, hq, applies_append, applies, replay, trackerAfter]
    · simp [textForegroundStep, drawnGlyphs, hq]

theorem run_applies_of_not_floor (c : EmitterCall) (hc : c.isFloor = false)
    (st : RenderState) :
    applies (c.run st).log = applies st.log ++ replay st.s_prevShader c.programs ∧
    (c.run st).s_prevShader = trackerAfter st.s_prevShader c.programs := by
  cases c with
  | text quads =>
    have hb := textBackgroundPass_applies quads st
    have hf := textForegroundPass_applies quads (textBackgroundPass quads st)
    simp only [EmitterCall.run, RenderText, EmitterCall.programs]
    rw [hf.1, hf.2, hb.1, hb.2, replay_append, trackerAfter_append]
    simp
  | floor => simp [EmitterCall.isFloor] at hc
  | fullScreenQuad texture width height =>
    simp [EmitterCall.run, RenderFullScreenQuad, EmitterCall.programs, applies_append,
      applies, replay, trackerAfter]
  | postProcessWarp sConfig texture left =>
    simp [EmitterCall.run, RenderPostProcessWarp, EmitterCall.programs, applies_append,
      applies_warpSetup, replay, trackerAfter]
    simp [applies]

theorem RenderFloor_applies (st : RenderState) :
    applies (RenderFloor st).log = applies st.log ++ [(Shader.phongTextured, st.s_prevShader)] ∧
    (RenderFloor st).s_prevShader = st.s_prevShader := by
  cases h : st.floorInit <;> simp [RenderFloor, h, applies, floorLightSetup]

theorem foldl_run_applies_of_no_floor (calls : List EmitterCall)
    (h : ∀ c ∈ calls, c.isFloor = false) (st : RenderState) :
    applies (calls.foldl (fun acc c => c.run acc) st).log =
        applies st.log ++ replay st.s_prevShader (framePrograms calls) ∧
    (calls.foldl (fun acc c => c.run acc) st).s_prevShader =
        trackerAfter st.s_prevShader (framePrograms calls) := by
  induction calls generalizing st with
  | nil => simp [framePrograms, replay, trackerAfter]
  | cons c cs ih =>
    have hc := run_applies_of_not_floor c (h c (List.mem_cons_self _ _)) st
    have hcs := ih (fun d hd => h d (List.mem_cons_of_mem _ hd)) (c.run st)
    simp only [List.foldl_cons, framePrograms]
    rw [hcs.1, hcs.2, hc.1, hc.2, replay_append, trackerAfter_append]
    simp

/-- Frames without `RenderFloor`: the number of full binds is the number of
maximal runs of consecutive draws with the same program. -/
theorem fullBindCount_eq_maximalRuns_of_no_floor (calls : List EmitterCall)
    (h : ∀ c ∈ calls, c.isFloor = false) (prev : Option Shader) (checker : Nat)
    (init : Bool) :
    fullBindCount (runFrame calls (freshState prev checker init)).log =
      maximalRuns (drawPrograms (runFrame calls (freshState prev checker init)).log) := by
  have hf := (foldl_run_applies_of_no_floor calls h (RenderBegin (freshState prev checker init))).1
  simp only [fullBindCount, drawPrograms, runFrame]
  rw [hf]
  simp [RenderBegin, freshState, applies, map_fst_replay, fullBind_count_replay_none]

/-- C1, at the failing inputs.  After `RenderBegin`, two `RenderFloor` calls in
a row draw one run of the ground-plane program but perform two full binds; and
in blit, floor, blit the second blit follows a draw with another program yet
is handed its own program as `previous`, so three runs give two full binds. -/
theorem RenderFloor_leaves_tracker_stale :
    fullBindCount
        (runFrame [EmitterCall.floor, EmitterCall.floor] (freshState none 0 false)).log = 2 ∧
    maximalRuns (drawPrograms
        (runFrame [EmitterCall.floor, EmitterCall.floor] (freshState none 0 false)).log) = 1 ∧
    applies (runFrame [EmitterCall.fullScreenQuad 1 800 600, EmitterCall.floor,
        EmitterCall.fullScreenQuad 1 800 600] (freshState none 0 false)).log =
      [(Shader.fullbrightTextured, none),
       (Shader.phongTextured, some Shader.fullbrightTextured),
       (Shader.fullbrightTextured, some Shader.fullbrightTextured)] ∧
    fullBindCount (runFrame [EmitterCall.fullScreenQuad 1 800 600, EmitterCall.floor,
        EmitterCall.fullScreenQuad 1 800 600] (freshState none 0 false)).log = 2 ∧
    maximalRuns (drawPrograms (runFrame [EmitterCall.fullScreenQuad 1 800 600,
        EmitterCall.floor, EmitterCall.fullScreenQuad 1 800 600]
        (freshState none 0 false)).log) = 3 := by
  refine ⟨by decide, by decide, by decide, by decide, by decide⟩

theorem programs_ne_nil (c : EmitterCall)
    (hc : ∀ quads, c = EmitterCall.text quads → quads ≠ []) :
    ∃ s rest, c.programs = s :: rest := by
  cases c with
  | text quads =>
    cases quads with
    | nil => exact absurd rfl (hc [] rfl)
    | cons q qs => exact ⟨Shader.fullbright, _, by simp [EmitterCall.programs]; rfl⟩
  | floor => exact ⟨_, _, rfl⟩
  | fullScreenQuad texture width height => exact ⟨_, _, rfl⟩
  | postProcessWarp sConfig texture left => exact ⟨_, _, rfl⟩

/-- C2. Whatever the tracker held before, after `RenderBegin` the first `apply`
issued by the emitter called next (`RenderText` on at least one quad,
`RenderFloor`, `RenderFullScreenQuad` or `RenderPostProcessWarp`) is handed the
null previous program, so it performs a full bind. -/
theorem RenderBegin_first_apply_has_no_previous (st : RenderState) (c : EmitterCall)
    (hc : ∀ quads, c = EmitterCall.text quads → quads ≠ []) :
    ∃ s rest, applies (c.run (RenderBegin st)).log = applies st.log ++ (s, none) :: rest ∧
      fullBind s none = true := by
  by_cases hf : c.isFloor = true
  · cases c with
    | floor =>
      refine ⟨Shader.phongTextured, [], ?_, by decide⟩
      simpa [EmitterCall.run, RenderBegin] using (RenderFloor_applies (RenderBegin st)).1
    | text quads => simp [EmitterCall.isFloor] at hf
    | fullScreenQuad texture width height => simp [EmitterCall.isFloor] at hf
    | postProcessWarp sConfig texture left => simp [EmitterCall.isFloor] at hf
  · obtain ⟨s, rest, hp⟩ := programs_ne_nil c hc
    have h := (run_applies_of_not_floor c (by simpa using hf) (RenderBegin st)).1
    rw [hp] at h
    refine ⟨s, replay (some s) rest, ?_, by simp [fullBind]⟩
    simpa [replay, RenderBegin] using h

/-- C2 at a concrete frame: the tracker still holds the distortion shader of
the previous frame, and a one-glyph `RenderText` follows `RenderBegin`. -/
theorem RenderBegin_first_apply_has_no_previous_witness :
    (∀ quads, EmitterCall.text [sampleGlyph] = EmitterCall.text quads → quads ≠ []) ∧
    ∃ s rest,
      applies ((EmitterCall.text [sampleGlyph]).run
        (RenderBegin (freshState (some Shader.oculus) 0 true))).log =
        applies (freshState (some Shader.oculus) 0 true).log ++ (s, none) :: rest ∧
      fullBind s none = true :=
  ⟨fun quads h => by cases h; simp,
   RenderBegin_first_apply_has_no_previous (freshState (some Shader.oculus) 0 true)
     (EmitterCall.text [sampleGlyph]) (fun quads h => by cases h; simp)⟩

/-! ### Text -/

theorem textBackgroundPass_log (quads : List GB_GlyphQuad) (st : RenderState) :
    applyAttribs Shader.fullbright (textBackgroundPass quads st).log =
        applyAttribs Shader.fullbright st.log ++ quads.map textBackgroundPos ∧
    applyAttribs Shader.fullbrightTexturedText (textBackgroundPass quads st).log =
        applyAttribs Shader.fullbrightTexturedText st.log ∧
    drawCount (textBackgroundPass quads st).log = drawCount st.log + quads.length := by
  induction quads generalizing st with
  | nil => simp [textBackgroundPass]
  | cons q qs ih =>
    have h := ih (textBackgroundStep q st)
    simp only [textBackgroundPass, List.foldl_cons] at h ⊢
    rw [h.1, h.2.1, h.2.2]
    refine ⟨?_, ?_, ?_⟩
    · simp [textBackgroundStep, applyAttribs_append, applyAttribs]
    · simp [textBackgroundStep, applyAttribs_append, applyAttribs]
    · simp [textBackgroundStep, drawCount_append, drawCount]
      omega

theorem textForegroundStep_log (q : GB_GlyphQuad) (st : RenderState) :
    applyAttribs Shader.fullbright (textForegroundStep q st).log =
        applyAttribs Shader.fullbright st.log ∧
    applyAttribs Shader.fullbrightTexturedText (textForegroundStep q st).log =
        applyAttribs Shader.fullbrightTexturedText st.log ++
          (if q.size0 > 0 ∧ q.size1 > 0 then [textForegroundAttrib q] else []) ∧
    drawCount (textForegroundStep q st).log =
        drawCount st.log + (if q.size0 > 0 ∧ q.size1 > 0 then 1 else 0) := by
  by_cases hq : q.size0 > 0 ∧ q.size1 > 0
  · simp [textForegroundStep, hq, applyAttribs_append, drawCount_append, applyAttribs, drawCount]
  · simp [textForegroundStep, hq]

theorem textForegroundPass_log (quads : List GB_GlyphQuad) (st : RenderState) :
    applyAttribs Shader.fullbright (textForegroundPass quads st).log =
        applyAttribs Shader.fullbright st.log ∧
    applyAttribs Shader.fullbrightTexturedText (textForegroundPass quads st).log =
        applyAttribs Shader.fullbrightTexturedText st.log ++
          (drawnGlyphs quads).map textForegroundAttrib ∧
    drawCount (textForegroundPass quads st).log =
        drawCount st.log + (drawnGlyphs quads).length := by
  induction quads generalizing st with
  | nil => simp [textForegroundPass, drawnGlyphs]
  | cons q qs ih =>
    have h := ih (textForegroundStep q st)
    have hs := textForegroundStep_log q st
    simp only [textForegroundPass, List.foldl_cons] at h ⊢
    rw [h.1, h.2.1, h.2.2, hs.1, hs.2.1, hs.2.2]
    by_cases hq : q.size0 > 0 ∧ q.size1 > 0
    · simp [drawnGlyphs, hq]
      omega
    · simp [drawnGlyphs, hq]

/-- C6. In `RenderText` the foreground pass draws exactly the quads with
`size[0] > 0` and `size[1] > 0`, in order: a quad with a non-positive size
leaves the state untouched (no `apply`, no draw), any other quad adds one
`apply` and one draw, so the foreground draws number the quads with both sizes
positive. -/
theorem RenderText_foreground_skip_rule (quads : List GB_GlyphQuad) (st : RenderState) :
    applyAttribs Shader.fullbrightTexturedText (RenderText quads st).log =
        applyAttribs Shader.fullbrightTexturedText st.log ++
          (quads.filter fun q => decide (q.size0 > 0 ∧ q.size1 > 0)).map
            textForegroundAttrib ∧
    drawCount (RenderText quads st).log =
        drawCount (textBackgroundPass quads st).log +
          (quads.filter fun q => decide (q.size0 > 0 ∧ q.size1 > 0)).length ∧
    (∀ (q : GB_GlyphQuad) (s : RenderState),
        drawCount (textForegroundStep q s).log =
          drawCount s.log + (if q.size0 > 0 ∧ q.size1 > 0 then 1 else 0)) ∧
    (∀ (q : GB_GlyphQuad) (s : RenderState),
        (q.size0 ≤ 0 ∨ q.size1 ≤ 0) → textForegroundStep q s = s) := by
  have hb := textBackgroundPass_log quads st
  have hf := textForegroundPass_log quads (textBackgroundPass quads st)
  refine ⟨?_, ?_, fun q s => (textForegroundStep_log q s).2.2, ?_⟩
  · simp only [RenderText]
    rw [hf.2.1, hb.2.1]
    rfl
  · simp only [RenderText]
    rw [hf.2.2]
    rfl
  · intro q s hq
    have : ¬ (q.size0 > 0 ∧ q.size1 > 0) := by omega
    simp [textForegroundStep, this]

/-- C6 at a concrete list: a glyph, a blank of width `0`, a glyph.  The blank
is skipped; two foreground draws follow the three background draws. -/
theorem RenderText_foreground_skip_rule_witness :
    (sampleBlank.size0 ≤ 0 ∨ sampleBlank.size1 ≤ 0) ∧
    textForegroundStep sampleBlank (freshState none 0 false) = freshState none 0 false ∧
    drawCount (RenderText [sampleGlyph, sampleBlank, sampleGlyph]
      (freshState none 0 false)).log = 3 + 2 :=
  ⟨by decide,
   (RenderText_foreground_skip_rule [sampleGlyph, sampleBlank, sampleGlyph]
     (freshState none 0 false)).2.2.2 sampleBlank (freshState none 0 false) (by decide),
   by decide⟩

/-! ### Machine arithmetic -/

theorem floatOfInt_exact (n : Int) (h : n.natAbs ≤ 2 ^ 24) : floatOfInt n = n := by
  unfold floatOfInt
  exact if_pos h

theorem floatAdd_exact (a b : Int) (h : (a + b).natAbs ≤ 2 ^ 24) : floatAdd a b = a + b :=
  floatOfInt_exact _ h

theorem applyAttribs_RenderText_fullbright (quads : List GB_GlyphQuad) (st : RenderState) :
    applyAttribs Shader.fullbright (RenderText quads st).log =
      applyAttribs Shader.fullbright st.log ++ quads.map textBackgroundPos := by
  have hb := textBackgroundPass_log quads st
  have hf := textForegroundPass_log quads (textBackgroundPass quads st)
  simp only [RenderText]
  rw [hf.1, hb.1]

theorem textBackgroundPos_sampleGlyphAt (pen1 : Int) :
    textBackgroundPos (sampleGlyphAt pen1) =
      [5, ((floatOfInt ((pen1 + 10) % 2 ^ 32) : Int) : ℚ), 0,
       17, ((floatOfInt ((pen1 + 10) % 2 ^ 32) : Int) : ℚ), 0,
       5, ((floatOfInt (floatOfInt ((pen1 + 10) % 2 ^ 32) + -30) : Int) : ℚ), 0,
       17, ((floatOfInt (floatOfInt ((pen1 + 10) % 2 ^ 32) + -30) : Int) : ℚ), 0] := by
  have h5 : floatOfInt 5 = 5 := by decide
  have h12 : floatOfInt 12 = 12 := by decide
  have h30 : floatOfInt 30 = 30 := by decide
  have h17 : floatOfInt 17 = 17 := by decide
  simp [textBackgroundPos, sampleGlyphAt, sampleGlyph, floatAdd, h5, h12, h30, h17]

/-! ### Text background box -/

/-- C7, refuted as stated.  Pen `(5, py)`, line height `30`, advance `12`; the
claim puts the first vertex at `y = py + 10`.  At `py = 16777207` the sum
`16777217` is not a `float` and the code stores `16777216`.  At
`py = 4294967295` (an unsigned pen) the 32-bit sum wraps and the code stores
`9`, not `4294967305`.  At `py = -20` (a signed pen) the sum converts to
`4294967286` and the code stores `4294967296`, not `-10`. -/
theorem RenderText_background_box_counterexample :
    (applyAttribs Shader.fullbright
        (RenderText [sampleGlyphAt 16777207] (freshState none 0 false)).log =
        [[5, 16777216, 0, 17, 16777216, 0, 5, 16777186, 0, 17, 16777186, 0]] ∧
      (16777216 : ℚ) ≠ ((16777207 : Int) : ℚ) + ((30 / 3 : Nat) : ℚ)) ∧
    (applyAttribs Shader.fullbright
        (RenderText [sampleGlyphAt 4294967295] (freshState none 0 false)).log =
        [[5, 9, 0, 17, 9, 0, 5, -21, 0, 17, -21, 0]] ∧
      (9 : ℚ) ≠ ((4294967295 : Int) : ℚ) + ((30 / 3 : Nat) : ℚ)) ∧
    (applyAttribs Shader.fullbright
        (RenderText [sampleGlyphAt (-20)] (freshState none 0 false)).log =
        [[5, 4294967296, 0, 17, 4294967296, 0, 5, 4294967296, 0, 17, 4294967296, 0]] ∧
      (4294967296 : ℚ) ≠ ((-20 : Int) : ℚ) + ((30 / 3 : Nat) : ℚ)) := by
  have e1 : floatOfInt ((16777207 + 10) % 2 ^ 32) = 16777216 := by decide
  have e1b : floatOfInt (16777216 + -30) = 16777186 := by decide
  have e2 : floatOfInt ((4294967295 + 10) % 2 ^ 32) = 9 := by decide
  have e2b : floatOfInt (9 + -30) = -21 := by decide
  have e3 : floatOfInt ((-20 + 10) % 2 ^ 32) = 4294967296 := by decide
  have e3b : floatOfInt (4294967296 + -30) = 4294967296 := by decide
  refine ⟨⟨?_, by norm_num⟩, ⟨?_, by norm_num⟩, ⟨?_, by norm_num⟩⟩
  · rw [applyAttribs_RenderText_fullbright, List.map_singleton,
      textBackgroundPos_sampleGlyphAt, e1, e1b]
    norm_num [freshState, applyAttribs]
  · rw [applyAttribs_RenderText_fullbright, List.map_singleton,
      textBackgroundPos_sampleGlyphAt, e2, e2b]
    norm_num [freshState, applyAttribs]
  · rw [applyAttribs_RenderText_fullbright, List.map_singleton,
      textBackgroundPos_sampleGlyphAt, e3, e3b]
    norm_num [freshState, applyAttribs]

/-- C3 at two concrete pixels of a buffer that was all zero: `(3, 300)` lies in
the upper right quadrant, `(300, 300)` in the lower right one. -/
theorem CreateCheckerTexture_pattern_witness :
    (CreateCheckerTexture fun _ => 0)[3 * 512 + 300]? = some 255 ∧
    (CreateCheckerTexture fun _ => 0)[300 * 512 + 300]? = some 100 :=
  ⟨by simpa using (CreateCheckerTexture_pattern fun _ => 0).2 3 300 (by decide) (by decide),
   by simpa using (CreateCheckerTexture_pattern fun _ => 0).2 300 300 (by decide) (by decide)⟩

/-- C7, amended.  For every glyph whose numbers the machine types hold exactly
(line height `L ≤ 2 ^ 24`, `0 ≤ py + L / 3 ≤ 2 ^ 24`, and `px`, `A`, `px + A` of
magnitude at most `2 ^ 24`), the background rectangle `RenderText` hands to
`apply` has the four vertices `(px, py + o)`, `(px + A, py + o)`,
`(px, py + o - L)`, `(px + A, py + o - L)`, all at depth `0`, where `(px, py)`
is the pen, `A` the maximum advance and `o = L / 3` in unsigned integer
division: offset `o`, box height `-L`. -/
theorem RenderText_background_box_exact (quads : List GB_GlyphQuad) (st : RenderState)
    (hq : ∀ q ∈ quads,
      q.user_data.line_height ≤ 2 ^ 24 ∧
      0 ≤ q.pen1 + ((q.user_data.line_height / 3 : Nat) : Int) ∧
      q.pen1 + ((q.user_data.line_height / 3 : Nat) : Int) ≤ 2 ^ 24 ∧
      q.pen0.natAbs ≤ 2 ^ 24 ∧
      q.user_data.max_advance.natAbs ≤ 2 ^ 24 ∧
      (q.pen0 + q.user_data.max_advance).natAbs ≤ 2 ^ 24) :
    applyAttribs Shader.fullbright (RenderText quads st).log =
      applyAttribs Shader.fullbright st.log ++
        quads.map fun q =>
          [(q.pen0 : ℚ), (q.pen1 : ℚ) + ((q.user_data.line_height / 3 : Nat) : ℚ), 0,
           (q.pen0 : ℚ) + (q.user_data.max_advance : ℚ),
             (q.pen1 : ℚ) + ((q.user_data.line_height / 3 : Nat) : ℚ), 0,
           (q.pen0 : ℚ),
             (q.pen1 : ℚ) + ((q.user_data.line_height / 3 : Nat) : ℚ)
               - (q.user_data.line_height : ℚ), 0,
           (q.pen0 : ℚ) + (q.user_data.max_advance : ℚ),
             (q.pen1 : ℚ) + ((q.user_data.line_height / 3 : Nat) : ℚ)
               - (q.user_data.line_height : ℚ), 0] := by
  rw [applyAttribs_RenderText_fullbright]
  congr 1
  apply List.map_congr_left
  intro q hmem
  obtain ⟨hL, h0, h1, hx, hA, hxA⟩ := hq q hmem
  have e0 : q.user_data.line_height / 3 % 2 ^ 32 = q.user_data.line_height / 3 :=
    Nat.mod_eq_of_lt (by omega)
  have e1 : (q.pen1 + ((q.user_data.line_height / 3 : Nat) : Int)) % 2 ^ 32 =
      q.pen1 + ((q.user_data.line_height / 3 : Nat) : Int) :=
    Int.emod_eq_of_lt h0 (by omega)
  have e2 : floatOfInt q.pen0 = q.pen0 := floatOfInt_exact _ hx
  have e3 : floatOfInt (q.pen1 + ((q.user_data.line_height / 3 : Nat) : Int)) =
      q.pen1 + ((q.user_data.line_height / 3 : Nat) : Int) :=
    floatOfInt_exact _ (by omega)
  have e4 : floatOfInt q.user_data.max_advance = q.user_data.max_advance :=
    floatOfInt_exact _ hA
  have e5 : floatOfInt (q.user_data.line_height : Int) = (q.user_data.line_height : Int) :=
    floatOfInt_exact _ (by omega)
  have e6 : floatAdd q.pen0 q.user_data.max_advance = q.pen0 + q.user_data.max_advance :=
    floatAdd_exact _ _ hxA
  have e7 : floatAdd (q.pen1 + ((q.user_data.line_height / 3 : Nat) : Int))
        (-(q.user_data.line_height : Int)) =
      q.pen1 + ((q.user_data.line_height / 3 : Nat) : Int)
        + -(q.user_data.line_height : Int) :=
    floatAdd_exact _ _ (by omega)
  simp only [textBackgroundPos, e0, e1, e2, e3, e4, e5, e6, e7, Int.cast_add, Int.cast_neg,
    Int.cast_natCast, sub_eq_add_neg]

/-- C7 at line height `30`: pen `(5, 7)`, advance `12`; the offset is `10`, so
the box runs from `y = 17` down to `y = 17 - 30 = -13`. -/
theorem RenderText_background_box_exact_witness :
    (∀ q ∈ [sampleGlyph],
      q.user_data.line_height ≤ 2 ^ 24 ∧
      0 ≤ q.pen1 + ((q.user_data.line_height / 3 : Nat) : Int) ∧
      q.pen1 + ((q.user_data.line_height / 3 : Nat) : Int) ≤ 2 ^ 24 ∧
      q.pen0.natAbs ≤ 2 ^ 24 ∧
      q.user_data.max_advance.natAbs ≤ 2 ^ 24 ∧
      (q.pen0 + q.user_data.max_advance).natAbs ≤ 2 ^ 24) ∧
    applyAttribs Shader.fullbright (RenderText [sampleGlyph] (freshState none 0 false)).log =
      [[5, 17, 0, 17, 17, 0, 5, -13, 0, 17, -13, 0]] := by
  have hs : ∀ q ∈ [sampleGlyph],
      q.user_data.line_height ≤ 2 ^ 24 ∧
      0 ≤ q.pen1 + ((q.user_data.line_height / 3 : Nat) : Int) ∧
      q.pen1 + ((q.user_data.line_height / 3 : Nat) : Int) ≤ 2 ^ 24 ∧
      q.pen0.natAbs ≤ 2 ^ 24 ∧
      q.user_data.max_advance.natAbs ≤ 2 ^ 24 ∧
      (q.pen0 + q.user_data.max_advance).natAbs ≤ 2 ^ 24 := by
    intro q hmem
    rw [List.mem_singleton] at hmem
    subst hmem
    decide
  refine ⟨hs, ?_⟩
  rw [RenderText_background_box_exact [sampleGlyph] (freshState none 0 false) hs]
  norm_num [sampleGlyph, freshState, applyAttribs]

/-! ### Full-screen blit -/

theorem applyAttribs_RenderFullScreenQuad (texture : Nat) (width height : Int)
    (st : RenderState) :
    applyAttribs Shader.fullbrightTextured
        (RenderFullScreenQuad texture width height st).log =
      applyAttribs Shader.fullbrightTextured st.log ++ [fullScreenQuadAttrib width height] := by
  simp [RenderFullScreenQuad, applyAttribs_append, applyAttribs]

/-- C5, refuted as stated.  At `width = 16777217` the second vertex is stored at
`x = 16777216`, the nearest `float`, not at `x = width`.  At `width = 0` the
second vertex has `x = 0` and `u = 1`, so `u = 0 at x = 0` fails for it. -/
theorem RenderFullScreenQuad_vertices_counterexample :
    (applyAttribs Shader.fullbrightTextured
        (RenderFullScreenQuad 1 16777217 600 (freshState none 0 false)).log =
        [[0, 0, 0, 0, 0, 16777216, 0, 0, 1, 0, 0, 600, 0, 0, 1, 16777216, 600, 0, 1, 1]] ∧
      (vertexAt (fullScreenQuadAttrib 16777217 600) 1).x ≠ ((16777217 : Int) : ℚ)) ∧
    (applyAttribs Shader.fullbrightTextured
        (RenderFullScreenQuad 1 0 600 (freshState none 0 false)).log =
        [[0, 0, 0, 0, 0, 0, 0, 0, 1, 0, 0, 600, 0, 0, 1, 0, 600, 0, 1, 1]] ∧
      (vertexAt (fullScreenQuadAttrib 0 600) 1).x = 0 ∧
      (vertexAt (fullScreenQuadAttrib 0 600) 1).u ≠ 0) := by
  have e1 : floatOfInt 16777217 = 16777216 := by decide
  have e2 : floatOfInt 600 = 600 := by decide
  have e3 : floatOfInt 0 = 0 := by decide
  refine ⟨⟨?_, ?_⟩, ?_, ?_, ?_⟩
  · rw [applyAttribs_RenderFullScreenQuad]
    norm_num [applyAttribs, fullScreenQuadAttrib, freshState, e1, e2]
  · norm_num [vertexAt, fullScreenQuadAttrib, e1, e2]
  · rw [applyAttribs_RenderFullScreenQuad]
    norm_num [applyAttribs, fullScreenQuadAttrib, freshState, e2, e3]
  · norm_num [vertexAt, fullScreenQuadAttrib, e2, e3]
  · norm_num [vertexAt, fullScreenQuadAttrib, e2, e3]

/-- C5, amended.  For every `width` and `height` of magnitude at most `2 ^ 24`,
the vertex buffer `RenderFullScreenQuad` hands to `apply` is the four vertices
`(0, 0, 0)`, `(width, 0, 0)`, `(0, height, 0)`, `(width, height, 0)` with UVs
`(0, 0)`, `(1, 0)`, `(0, 1)`, `(1, 1)`, interleaved as `x, y, z, u, v`; and when
`width` and `height` are not `0`, each of the four vertices has `u = 0` exactly
at `x = 0`, `u = 1` exactly at `x = width`, `v = 0` exactly at `y = 0` and
`v = 1` exactly at `y = height`: corner `(0, 0)` carries UV `(0, 0)` and corner
`(width, height)` carries UV `(1, 1)`. -/
theorem RenderFullScreenQuad_vertices_exact (texture : Nat) (width height : Int)
    (st : RenderState) (hw : width.natAbs ≤ 2 ^ 24) (hh : height.natAbs ≤ 2 ^ 24) :
    applyAttribs Shader.fullbrightTextured
        (RenderFullScreenQuad texture width height st).log =
      applyAttribs Shader.fullbrightTextured st.log ++
        [[0, 0, 0, 0, 0,
          (width : ℚ), 0, 0, 1, 0,
          0, (height : ℚ), 0, 0, 1,
          (width : ℚ), (height : ℚ), 0, 1, 1]] ∧
    applyAttribs Shader.fullbrightTextured
        (RenderFullScreenQuad texture width height st).log =
      applyAttribs Shader.fullbrightTextured st.log ++ [fullScreenQuadAttrib width height] ∧
    (width ≠ 0 → height ≠ 0 → ∀ k, k < 4 →
      (vertexAt (fullScreenQuadAttrib width height) k).z = 0 ∧
      ((vertexAt (fullScreenQuadAttrib width height) k).x = 0 ↔
        (vertexAt (fullScreenQuadAttrib width height) k).u = 0) ∧
      ((vertexAt (fullScreenQuadAttrib width height) k).x = (width : ℚ) ↔
        (vertexAt (fullScreenQuadAttrib width height) k).u = 1) ∧
      ((vertexAt (fullScreenQuadAttrib width height) k).y = 0 ↔
        (vertexAt (fullScreenQuadAttrib width height) k).v = 0) ∧
      ((vertexAt (fullScreenQuadAttrib width height) k).y = (height : ℚ) ↔
        (vertexAt (fullScreenQuadAttrib width height) k).v = 1)) := by
  have ew : floatOfInt width = width := floatOfInt_exact _ hw
  have eh : floatOfInt height = height := floatOfInt_exact _ hh
  refine ⟨?_, applyAttribs_RenderFullScreenQuad texture width height st, ?_⟩
  · rw [applyAttribs_RenderFullScreenQuad]
    simp [fullScreenQuadAttrib, ew, eh]
  · intro hw0 hh0 k hk
    have hwq : (width : ℚ) ≠ 0 := by exact_mod_cast hw0
    have hhq : (height : ℚ) ≠ 0 := by exact_mod_cast hh0
    have hk4 : k = 0 ∨ k = 1 ∨ k = 2 ∨ k = 3 := by omega
    rcases hk4 with rfl | rfl | rfl | rfl <;>
      simp [vertexAt, fullScreenQuadAttrib, ew, eh, hwq, hhq, hwq.symm, hhq.symm]

/-- C5 at `width = 800`, `height = 600`. -/
theorem RenderFullScreenQuad_vertices_exact_witness :
    ((800 : Int).natAbs ≤ 2 ^ 24 ∧ (600 : Int).natAbs ≤ 2 ^ 24) ∧
    applyAttribs Shader.fullbrightTextured
        (RenderFullScreenQuad 1 800 600 (freshState none 0 false)).log =
      [[0, 0, 0, 0, 0, 800, 0, 0, 1, 0, 0, 600, 0, 0, 1, 800, 600, 0, 1, 1]] := by
  refine ⟨⟨by decide, by decide⟩, ?_⟩
  rw [(RenderFullScreenQuad_vertices_exact 1 800 600 (freshState none 0 false)
    (by decide) (by decide)).1]
  norm_num [freshState, applyAttribs]

/-! ### Stereo distortion -/

/-- C4. For all viewport fractions `x, y, w, h` and every centre offset `c`,
the lens centres computed for the left and for the right eye are mirror images
about the screen centre `(x + w/2, y + h/2)`: it is their midpoint, their
horizontal offsets from it are `+c/4` and `-c/4`, and both share its vertical
coordinate.  These are the values `RenderPostProcessWarp` passes to
`setLensCenter` and `setScreenCenter`. -/
theorem lensCenter_mirror (x y w h c : ℚ) :
    screenCenter x y w h = { x := x + w / 2, y := y + h / 2 } ∧
    ((lensCenter x y w h c true).x + (lensCenter x y w h c false).x) / 2
        = (screenCenter x y w h).x ∧
    ((lensCenter x y w h c true).y + (lensCenter x y w h c false).y) / 2
        = (screenCenter x y w h).y ∧
    (lensCenter x y w h c true).x - (screenCenter x y w h).x = c / 4 ∧
    (lensCenter x y w h c false).x - (screenCenter x y w h).x = -(c / 4) ∧
    (lensCenter x y w h c true).y = (screenCenter x y w h).y ∧
    (lensCenter x y w h c false).y = (screenCenter x y w h).y ∧
    ∀ (sConfig : StereoConfig) (texture : Nat) (left : Bool) (st : RenderState),
      Event.setLensCenter
          (lensCenter (warpX sConfig left) (warpY sConfig left) (warpW sConfig left)
            (warpH sConfig left)
            (sConfig.GetEyeRenderParams (eyeOf left)).pDistortion.XCenterOffset left)
        ∈ (RenderPostProcessWarp sConfig texture left st).log ∧
      Event.setScreenCenter
          (screenCenter (warpX sConfig left) (warpY sConfig left) (warpW sConfig left)
            (warpH sConfig left))
        ∈ (RenderPostProcessWarp sConfig texture left st).log := by
  refine ⟨?_, ?_, ?_, ?_, ?_, ?_, ?_, ?_⟩
  · simp only [screenCenter, Vector2f.mk.injEq]
    constructor <;> ring
  · simp only [lensCenter, screenCenter]; norm_num; ring
  · simp only [lensCenter, screenCenter]; ring
  · simp only [lensCenter, screenCenter]; norm_num; ring
  · simp only [lensCenter, screenCenter]; norm_num; ring
  · simp only [lensCenter, screenCenter]
  · simp only [lensCenter, screenCenter]
  · intro sConfig texture left st
    simp [RenderPostProcessWarp, warpSetup]

/-- C10. Whenever the locals `w`, `h`, `as` and the distortion scale are
non-zero, the vectors `RenderPostProcessWarp` passes to `setScale` and
`setScaleIn` satisfy `scale.x * scaleIn.x = scale.y * scaleIn.y =
1 / distortionScale`, for either eye. -/
theorem RenderPostProcessWarp_scale_inverse (sConfig : StereoConfig) (texture : Nat)
    (left : Bool) (st : RenderState)
    (hw : warpW sConfig left ≠ 0) (hh : warpH sConfig left ≠ 0)
    (has : warpAs sConfig left ≠ 0)
    (hs : (sConfig.GetEyeRenderParams (eyeOf left)).pDistortion.Scale ≠ 0) :
    ∃ scale scaleIn : Vector2f,
      Event.setScale scale ∈ (RenderPostProcessWarp sConfig texture left st).log ∧
      Event.setScaleIn scaleIn ∈ (RenderPostProcessWarp sConfig texture left st).log ∧
      scale = warpScale (warpW sConfig left) (warpH sConfig left) (warpAs sConfig left)
        (sConfig.GetEyeRenderParams (eyeOf left)).pDistortion.Scale ∧
      scaleIn = warpScaleIn (warpW sConfig left) (warpH sConfig left) (warpAs sConfig left) ∧
      scale.x * scaleIn.x = 1 / (sConfig.GetEyeRenderParams (eyeOf left)).pDistortion.Scale ∧
      scale.y * scaleIn.y = 1 / (sConfig.GetEyeRenderParams (eyeOf left)).pDistortion.Scale := by
  refine ⟨_, _, ?_, ?_, rfl, rfl, ?_, ?_⟩
  · simp [RenderPostProcessWarp, warpSetup]
  · simp [RenderPostProcessWarp, warpSetup]
  · simp only [warpScale, warpScaleIn]
    field_simp
    ring
  · simp only [warpScale, warpScaleIn]
    field_simp
    ring

/-- C10 at the sample configuration, left eye: `w = 1/2`, `h = 1`, `as = 4/5`,
distortion scale `17/10`; both products are `10/17`. -/
theorem RenderPostProcessWarp_scale_inverse_witness :
    (warpW sampleStereoConfig true ≠ 0 ∧ warpH sampleStereoConfig true ≠ 0 ∧
      warpAs sampleStereoConfig true ≠ 0 ∧
      (sampleStereoConfig.GetEyeRenderParams (eyeOf true)).pDistortion.Scale ≠ 0) ∧
    ∃ scale scaleIn : Vector2f,
      Event.setScale scale ∈
        (RenderPostProcessWarp sampleStereoConfig 7 true (freshState none 0 false)).log ∧
      Event.setScaleIn scaleIn ∈
        (RenderPostProcessWarp sampleStereoConfig 7 true (freshState none 0 false)).log ∧
      scale = warpScale (warpW sampleStereoConfig true) (warpH sampleStereoConfig true)
        (warpAs sampleStereoConfig true)
        (sampleStereoConfig.GetEyeRenderParams (eyeOf true)).pDistortion.Scale ∧
      scaleIn = warpScaleIn (warpW sampleStereoConfig true) (warpH sampleStereoConfig true)
        (warpAs sampleStereoConfig true) ∧
      scale.x * scaleIn.x =
        1 / (sampleStereoConfig.GetEyeRenderParams (eyeOf true)).pDistortion.Scale ∧
      scale.y * scaleIn.y =
        1 / (sampleStereoConfig.GetEyeRenderParams (eyeOf true)).pDistortion.Scale :=
  ⟨⟨by norm_num [warpW, sampleStereoConfig, eyeOf],
    by norm_num [warpH, sampleStereoConfig, eyeOf],
    by norm_num [warpAs, sampleStereoConfig, eyeOf],
    by norm_num [sampleStereoConfig, eyeOf]⟩,
   RenderPostProcessWarp_scale_inverse sampleStereoConfig 7 true (freshState none 0 false)
    (by norm_num [warpW, sampleStereoConfig, eyeOf])
    (by norm_num [warpH, sampleStereoConfig, eyeOf])
    (by norm_num [warpAs, sampleStereoConfig, eyeOf])
    (by norm_num [sampleStereoConfig, eyeOf])⟩

/-- C9, at the failing input.  With the eye viewport at `y = 10`, the viewport
call receives `(0, 10, 640, 800)` but the scissor call receives
`(0, 0, 640, 800)`: its second argument is the constant `0`, not `VP.y`. -/
theorem RenderPostProcessWarp_scissor_ignores_y :
    (sampleStereoConfig.GetEyeRenderParams (eyeOf true)).VP.y = 10 ∧
    Event.glViewport 0 10 640 800 ∈
      (RenderPostProcessWarp sampleStereoConfig 7 true (freshState none 0 false)).log ∧
    Event.glScissor 0 0 640 800 ∈
      (RenderPostProcessWarp sampleStereoConfig 7 true (freshState none 0 false)).log ∧
    Event.glScissor 0 10 640 800 ∉
      (RenderPostProcessWarp sampleStereoConfig 7 true (freshState none 0 false)).log := by
  refine ⟨rfl, ?_, ?_, ?_⟩ <;>
    simp [RenderPostProcessWarp, warpSetup, sampleStereoConfig, eyeOf, freshState]

/-- The scissor rectangle of `RenderPostProcessWarp`, for every configuration:
`(VP.x, 0, VP.w, VP.h)`. -/
theorem RenderPostProcessWarp_scissor (sConfig : StereoConfig) (texture : Nat)
    (left : Bool) (st : RenderState) :
    Event.glScissor (sConfig.GetEyeRenderParams (eyeOf left)).VP.x 0
        (sConfig.GetEyeRenderParams (eyeOf left)).VP.w
        (sConfig.GetEyeRenderParams (eyeOf left)).VP.h
      ∈ (RenderPostProcessWarp sConfig texture left st).log ∧
    Event.glViewport (sConfig.GetEyeRenderParams (eyeOf left)).VP.x
        (sConfig.GetEyeRenderParams (eyeOf left)).VP.y
        (sConfig.GetEyeRenderParams (eyeOf left)).VP.w
        (sConfig.GetEyeRenderParams (eyeOf left)).VP.h
      ∈ (RenderPostProcessWarp sConfig texture left st).log := by
  simp [RenderPostProcessWarp, warpSetup]

/-! ### Start-up -/

theorem forall_shader_iff (p : Shader → Bool) :
    (∀ s, p s = true) ↔
      (p Shader.fullbright = true ∧ p Shader.fullbrightTextured = true ∧
        p Shader.fullbrightTexturedText = true ∧ p Shader.phongTextured = true ∧
        p Shader.oculus = true) := by
  constructor
  · intro h
    exact ⟨h _, h _, h _, h _, h _⟩
  · rintro ⟨h1, h2, h3, h4, h5⟩ s
    cases s <;> assumption

theorem exists_shader_false_iff (p : Shader → Bool) :
    (∃ s, p s = false) ↔ ¬ ∀ s, p s = true := by
  constructor
  · rintro ⟨s, hs⟩ h
    simp [h s] at hs
  · intro h
    by_contra hne
    exact h fun s => by
      cases hp : p s
      · exact absurd ⟨s, hp⟩ hne
      · rfl

/-- C8. `RenderInit` returns exactly when all five `compileAndLinkFromFiles`
calls succeed, and then the checker texture has been created; if any of the
five fails, the process ends in `exit(EXIT_FAILURE)`, a non-zero status, and
the checker texture is as it was before the call: never created. -/
theorem RenderInit_completes_iff_all_link (compileAndLinkFromFiles : Shader → Bool)
    (fresh : Nat → Nat) (g : InitState) :
    ((∃ g1, RenderInit compileAndLinkFromFiles fresh g = Except.ok g1) ↔
        ∀ s, compileAndLinkFromFiles s = true) ∧
    (∀ g1, RenderInit compileAndLinkFromFiles fresh g = Except.ok g1 →
        g1.checkerTexture = some (CreateCheckerTexture fresh)) ∧
    ((∃ s, compileAndLinkFromFiles s = false) →
        ∃ g1, RenderInit compileAndLinkFromFiles fresh g = Except.error (EXIT_FAILURE, g1) ∧
          g1.checkerTexture = g.checkerTexture) ∧
    EXIT_FAILURE ≠ 0 := by
  rw [exists_shader_false_iff, forall_shader_iff]
  refine ⟨?_, ?_, ?_, by decide⟩
  · cases h1 : compileAndLinkFromFiles Shader.fullbright <;>
    cases h2 : compileAndLinkFromFiles Shader.fullbrightTextured <;>
    cases h3 : compileAndLinkFromFiles Shader.fullbrightTexturedText <;>
    cases h4 : compileAndLinkFromFiles Shader.phongTextured <;>
    cases h5 : compileAndLinkFromFiles Shader.oculus <;>
    simp [RenderInit, h1, h2, h3, h4, h5]
  · cases h1 : compileAndLinkFromFiles Shader.fullbright <;>
    cases h2 : compileAndLinkFromFiles Shader.fullbrightTextured <;>
    cases h3 : compileAndLinkFromFiles Shader.fullbrightTexturedText <;>
    cases h4 : compileAndLinkFromFiles Shader.phongTextured <;>
    cases h5 : compileAndLinkFromFiles Shader.oculus <;>
    simp [RenderInit, h1, h2, h3, h4, h5]
  · cases h1 : compileAndLinkFromFiles Shader.fullbright <;>
    cases h2 : compileAndLinkFromFiles Shader.fullbrightTextured <;>
    cases h3 : compileAndLinkFromFiles Shader.fullbrightTexturedText <;>
    cases h4 : compileAndLinkFromFiles Shader.phongTextured <;>
    cases h5 : compileAndLinkFromFiles Shader.oculus <;>
    simp [RenderInit, h1, h2, h3, h4, h5]

/-- C8 at a concrete start-up: the fourth program (the ground-plane shader)
fails to link.  The process exits with status `1` after constructing four
shader objects, and no checker texture exists. -/
theorem RenderInit_completes_iff_all_link_witness :
    (∃ s, (fun s => decide (s ≠ Shader.phongTextured)) s = false) ∧
    ∃ g1, RenderInit (fun s => decide (s ≠ Shader.phongTextured)) (fun _ => 0)
        InitState.initial = Except.error (EXIT_FAILURE, g1) ∧
      g1.checkerTexture = InitState.initial.checkerTexture :=
  ⟨⟨Shader.phongTextured, by decide⟩,
   (RenderInit_completes_iff_all_link (fun s => decide (s ≠ Shader.phongTextured))
      (fun _ => 0) InitState.initial).2.2.1 ⟨Shader.phongTextured, by decide⟩⟩

end Riftty
